import Mathlib

/-!
Shallow embedding of the build/resolve orchestration engine of
`internal/build/imgsrc/resolver.go`: the telemetry build record, the
strategy loop shared by `ResolveReference` and `BuildImage`, the
`finishBuild` remote-call construction, the `limitLogs` truncation, the
heartbeat start-up decision of `StartHeartbeat`, and the `StopSignal`
stop semantics.

External collaborators (strategy `Run` implementations, the GraphQL
transport, the docker client, the HTTP stack, the wall clock) are
modelled as oracle parameters: a strategy is a name together with the
outcome its `Run` returns in the session under study, the create-build
remote call is an `Except` value, and `time.Now().UnixMilli()` is an
arbitrary integer-valued clock stream.
-/

namespace Imgsrc

/-- Model of `gql.BuildFinalImageInput`-level image data: identifier, tag, byte size
(`DeploymentImage` in the source, labels omitted as no modelled code reads
them). -/
structure DeploymentImage where
  id : String
  tag : String
  size : Int
  deriving Repr, DecidableEq

/-- Model of `gql.BuildTimingsInput`: six duration fields in milliseconds. The Go
zero value is all zeroes, so every field defaults to `0`. -/
structure BuildTimingsInput where
  buildAndPushMs : Int := 0
  builderInitMs : Int := 0
  buildMs : Int := 0
  contextBuildMs : Int := 0
  imageBuildMs : Int := 0
  pushMs : Int := 0
  deriving Repr, DecidableEq

/-- Model of `gql.BuildStrategyAttemptInput`: one telemetry record per strategy
attempt. -/
structure BuildStrategyAttemptInput where
  strategy : String
  result : String
  error : String
  note : String
  deriving Repr, DecidableEq

/-- Model of `gql.BuilderMetaInput`: builder metadata, zero-valued on creation. -/
structure BuilderMetaInput where
  builderType : String := ""
  remoteAppName : String := ""
  remoteMachineId : String := ""
  buildkitEnabled : Bool := false
  dockerVersion : String := ""
  platform : String := ""
  deriving Repr, DecidableEq

/-- Model of `const logLimit int = 4096`: limit stored logs to 4KB; take suffix if
longer. -/
def logLimit : Nat := 4096

/-- Model of `limitLogs`: `if len(log) > logLimit { return log[len(log)-logLimit:] };
return log`. Go indexes bytes; the function is stated generically over the
element type, so instantiating `α` with bytes gives the byte-exact
behaviour, and instantiating with `Char` gives the character-level variant
used inside the record model (they agree on ASCII data). -/
def limitLogs {α : Type} (log : List α) : List α :=
  if log.length > logLimit then log.drop (log.length - logLimit) else log

/-- Model of `limitLogs` applied to a Lean string through its character list. -/
def limitLogsStr (s : String) : String :=
  String.mk (limitLogs s.data)

/-- The `build` telemetry aggregate of resolver.go. -/
structure Build where
  createApiFailed : Bool
  buildId : String
  builderMeta : BuilderMetaInput
  strategyResults : List BuildStrategyAttemptInput
  timings : BuildTimingsInput
  startTimes : BuildTimingsInput
  deriving Repr, DecidableEq

/-- The `-1` "not measured" sentinel set assigned to `Timings` by
`newBuild` and `ResetTimings`. -/
def sentinelTimings : BuildTimingsInput :=
  { buildAndPushMs := -1, builderInitMs := -1, buildMs := -1,
    contextBuildMs := -1, imageBuildMs := -1, pushMs := -1 }

/-- Model of `newBuild(buildId, createApiFailed)`. -/
def newBuild (buildId : String) (createApiFailed : Bool) : Build :=
  { createApiFailed := createApiFailed
    buildId := buildId
    builderMeta := {}
    strategyResults := []
    startTimes := {}
    timings := sentinelTimings }

/-- Model of `newFailedBuild() = newBuild("", true)`. -/
def newFailedBuild : Build :=
  newBuild "" true

/-- Model of `(*build).ResetTimings`: fresh zero start times, sentinel timings. -/
def resetTimings (b : Build) : Build :=
  { b with startTimes := {}, timings := sentinelTimings }

/-- Model of `(*build).BuildAndPushStart`, with the `time.Now().UnixMilli()` sample
passed explicitly. -/
def buildAndPushStart (t : Int) (b : Build) : Build :=
  { b with startTimes := { b.startTimes with buildAndPushMs := t } }

/-- Model of `(*build).BuildAndPushFinish`: elapsed = now − matching start. -/
def buildAndPushFinish (t : Int) (b : Build) : Build :=
  { b with timings := { b.timings with
      buildAndPushMs := t - b.startTimes.buildAndPushMs } }

/-- Model of `(*build).finishStrategyCommon(strategy, failed, err, note)`: builds one
`BuildStrategyAttemptInput` and appends it. A non-nil Go `error` is
modelled by `some` of its `Error()` text. -/
def finishStrategyCommon (b : Build) (strategy : String) (failed : Bool)
    (err : Option String) (note : String) : Build :=
  let result := if failed then "failed" else "success"
  let errMsg := match err with
    | some e => e
    | none => ""
  { b with strategyResults := b.strategyResults ++
      [{ strategy := strategy, result := result,
         error := limitLogsStr errMsg, note := limitLogsStr note }] }

/-- The arguments of one `r.finishBuild(ctx, bld, failed, logs, img)` call
issued by the orchestrator (the `bld` argument is the session's record at
call time, recovered separately). -/
structure FinishBuildCall where
  failed : Bool
  logs : String
  img : Option DeploymentImage
  deriving Repr, DecidableEq

/-- Model of `gql.BuildFinalImageInput`, zero-valued unless an image was produced. -/
structure BuildFinalImageInput where
  id : String := ""
  tag : String := ""
  sizeBytes : Int := 0
  deriving Repr, DecidableEq

/-- Model of `gql.FinishBuildInput` as assembled by `(*Resolver).finishBuild`
(`AppName`/`MachineId` omitted: constants of the resolver, read by no
claim). -/
structure FinishBuildInput where
  buildId : String
  status : String
  logs : String
  builderMeta : BuilderMetaInput
  strategiesAttempted : List BuildStrategyAttemptInput
  timings : BuildTimingsInput
  finalImage : BuildFinalImageInput
  deriving Repr, DecidableEq

/-- Model of `(*Resolver).finishBuild`: returns `none` (no remote call — a no-op)
when `CreateApiFailed`, otherwise `some` of the `FinishBuildInput` sent to
the remote build tracker. `status` is `"failed"` unless `failed` is false,
and `FinalImage` is set exactly when `img != nil`. -/
def finishBuild (b : Build) (failed : Bool) (logs : String)
    (img : Option DeploymentImage) : Option FinishBuildInput :=
  if b.createApiFailed then
    none
  else
    let status := if failed then "failed" else "completed"
    let base : FinishBuildInput :=
      { buildId := b.buildId, status := status, logs := limitLogsStr logs,
        builderMeta := b.builderMeta,
        strategiesAttempted := b.strategyResults,
        timings := b.timings, finalImage := {} }
    some (match img with
      | some i => { base with
          finalImage := { id := i.id, tag := i.tag, sizeBytes := i.size } }
      | none => base)

/-- The outcome of one strategy's `Run(ctx, dockerFactory, streams, opts,
build)` in the session under study: image-or-absent, free-form note,
error-or-absent (a non-nil `error` modelled by its `Error()` text). `Run`
is an external collaborator; its mutation of the record's sub-phase timers
is outside this model (no claim reads them). -/
structure RunResult where
  img : Option DeploymentImage
  note : String
  err : Option String
  deriving Repr, DecidableEq

/-- A candidate strategy: its `Name()` and the outcome its `Run` returns
in this session. -/
structure Strategy where
  name : String
  run : RunResult
  deriving Repr, DecidableEq

/-- A strategy is decisive when its `Run` returns a non-nil error or a
non-nil image: the loop stops at the first decisive strategy. -/
def decisive (s : Strategy) : Bool :=
  s.run.err.isSome || s.run.img.isSome

/-- The clock stream: value of the n-th `time.Now().UnixMilli()` sample
taken by the orchestrator. -/
abbrev Clock := Nat → Int

deriving instance DecidableEq for Except

/-- What one orchestrator session produces: the final telemetry record,
the names of the strategies actually invoked in order, the
`r.finishBuild` calls issued in order, and the value returned to the
caller (`Except` error text or image). -/
structure SessionOut where
  bld : Build
  invoked : List String
  finishCalls : List FinishBuildCall
  outcome : Except String DeploymentImage
  deriving Repr, DecidableEq

/-- The strategy loop shared verbatim by `ResolveReference` (lines
171–199) and `BuildImage` (lines 242–266): for each strategy in order,
reset timings, mark build-and-push start, run, mark build-and-push
finish, then: on error append a failed attempt, finish the build as
failed with the error text and return the error; on image append a
successful attempt, finish as completed and return the image; otherwise
append a failed attempt with no error and continue. When every strategy
declines, finish as failed with "no strategies resulted in an image" and
return the entry point's exhaustion error `exhaustErr`. -/
def strategyLoop (exhaustErr : String) (clk : Clock) (k : Nat) (b : Build) :
    List Strategy → SessionOut
  | [] =>
    { bld := b
      invoked := []
      finishCalls := [{ failed := true,
                        logs := "no strategies resulted in an image",
                        img := none }]
      outcome := .error exhaustErr }
  | s :: rest =>
    let b1 := buildAndPushStart (clk k) (resetTimings b)
    let res := s.run
    let b2 := buildAndPushFinish (clk (k + 1)) b1
    match res.err with
    | some e =>
      let b3 := finishStrategyCommon b2 s.name true (some e) res.note
      { bld := b3, invoked := [s.name],
        finishCalls := [{ failed := true, logs := e, img := none }],
        outcome := .error e }
    | none =>
      match res.img with
      | some image =>
        let b3 := finishStrategyCommon b2 s.name false none res.note
        { bld := b3, invoked := [s.name],
          finishCalls := [{ failed := false, logs := "", img := some image }],
          outcome := .ok image }
      | none =>
        let b3 := finishStrategyCommon b2 s.name true none res.note
        let tail := strategyLoop exhaustErr clk (k + 2) b3 rest
        { tail with invoked := s.name :: tail.invoked }

/-- The record both entry points start from: `createBuildGql` returns
`newBuild(id, false)` on success and `newFailedBuild()` (empty id,
create-failed flag) on error; the entry points keep that record either
way. -/
def buildFromCreate (createRes : Except String String) : Build :=
  match createRes with
  | .ok buildId => newBuild buildId false
  | .error _ => newFailedBuild

/-- Go's `%q` on the image reference (escaping of special characters
inside the reference is not modelled). -/
def goQuote (s : String) : String :=
  "\"" ++ s ++ "\""

/-- Model of `(*Resolver).ResolveReference`: candidates are the local-daemon
resolver then the remote-registry resolver, in that order; exhaustion
returns `could not find image %q`. -/
def resolveReference (clk : Clock) (localRes remoteRes : Strategy)
    (createRes : Except String String) (imageRef : String) : SessionOut :=
  strategyLoop ("could not find image " ++ goQuote imageRef) clk 0
    (buildFromCreate createRes) [localRes, remoteRes]

/-- The error returned by `BuildImage` when docker is unavailable. -/
def dockerUnavailableMsg : String :=
  "docker is unavailable to build the deployment image"

/-- The error returned by `BuildImage` when every strategy declines. -/
def noDockerfileMsg : String :=
  "app does not have a Dockerfile or buildpacks configured. See https://fly.io/docs/reference/configuration/#the-build-section"

/-- Result of `BuildImage`: either the early unavailable error (before
any record or strategy), or a full session. -/
inductive BuildImageOut where
  | unavailable (err : String)
  | session (out : SessionOut)
  deriving Repr, DecidableEq

/-- Model of `(*Resolver).BuildImage`: fails fast when docker is unavailable;
otherwise the candidates are the nixpacks builder alone when nixpacks
mode is selected, else buildpacks, dockerfile, builtin in that order;
exhaustion returns the Dockerfile/buildpacks configuration error. (The
tag-defaulting of `opts.Tag` feeds only the abstracted create call.) -/
def buildImage (clk : Clock) (isAvailable useNixpacks : Bool)
    (nixpacksB buildpacksB dockerfileB builtinB : Strategy)
    (createRes : Except String String) : BuildImageOut :=
  if !isAvailable then
    .unavailable dockerUnavailableMsg
  else
    let strategies :=
      if useNixpacks then [nixpacksB]
      else [buildpacksB, dockerfileB, builtinB]
    .session (strategyLoop noDockerfileMsg clk 0
      (buildFromCreate createRes) strategies)

/-- Projection: the session of a `BuildImageOut` when the loop ran. -/
def BuildImageOut.sessionOf : BuildImageOut → Option SessionOut
  | .unavailable _ => none
  | .session out => some out

/-- The error values the heartbeat path distinguishes: an `httpError`
(status code and body, `errors.As`-matched in `StartHeartbeat`) or a
transport-level error from the HTTP client. -/
inductive HBErr where
  | http (statusCode : Nat) (body : String)
  | transport (msg : String)
  deriving Repr, DecidableEq

/-- The `heartbeat` function: the HTTP round trip is the oracle
`resp` (transport error text, or status code with response body; a body
read error only substitutes its text for the body and is not modelled
separately). Returns `none` on a 2xx status, otherwise the error the Go
function returns. -/
def heartbeat (resp : Except String (Nat × String)) : Option HBErr :=
  match resp with
  | .error e => some (.transport e)
  | .ok (code, body) =>
    if 200 ≤ code ∧ code < 300 then none
    else some (.http code body)

/-- The `StopSignal` shared state: whether the underlying channel has been
closed, and whether the `sync.Once` has fired. -/
structure StopSignalState where
  chanClosed : Bool
  onceDone : Bool
  deriving Repr, DecidableEq

/-- A freshly constructed `StopSignal{Chan: make(chan struct{})}`. -/
def freshStopSignal : StopSignalState :=
  { chanClosed := false, onceDone := false }

/-- Effect of one `(*StopSignal).Stop` call on a non-nil signal:
`s.once.Do(func(){ close(s.Chan) })`. `closes` counts the close events
this call performs; `doubleClose` records whether `close` was invoked on
an already-closed channel (which would panic in Go). Go's `sync.Once`
executes the body at most once across all calls and serialises racing
callers, so one atomic step per call models any interleaving of
concurrent `Stop` invocations. -/
structure StopEffect where
  state : StopSignalState
  closes : Nat
  doubleClose : Bool
  deriving Repr, DecidableEq

/-- One `Stop` call on a non-nil `StopSignal`. -/
def stopOne (st : StopSignalState) : StopEffect :=
  if st.onceDone then
    { state := st, closes := 0, doubleClose := false }
  else
    { state := { chanClosed := true, onceDone := true }, closes := 1,
      doubleClose := st.chanClosed }

/-- A sequence of `n` `Stop` calls (any interleaving of concurrent calls,
since each `sync.Once.Do` is atomic): final state, total close events,
and whether any call double-closed. -/
def stopSeq : Nat → StopSignalState → StopSignalState × Nat × Bool
  | 0, st => (st, 0, false)
  | n + 1, st =>
    let e := stopOne st
    let (st2, c, p) := stopSeq n e.state
    (st2, e.closes + c, e.doubleClose || p)

/-- Model of `(*StopSignal).Stop` on a possibly-nil receiver: `if s == nil
{ return }` makes the nil case a no-op. -/
def stopPtr (s : Option StopSignalState) :
    Option StopSignalState × Nat × Bool :=
  match s with
  | none => (none, 0, false)
  | some st =>
    let e := stopOne st
    (some e.state, e.closes, e.doubleClose)

/-- Model of `(*Resolver).StartHeartbeat` up to the decision whether to start the
background loop. Oracle inputs: `remote` (`r.dockerFactory.remote`),
`buildFn` (docker client construction), `urlRes` (`getHeartbeatUrl`),
`reqOk` (`http.NewRequestWithContext` succeeding), `probe1` (the first
liveness GET, fed to `heartbeat`), `probe2` (the confirmation GET:
transport error text or status code). Returns the handle (`some` a fresh
`StopSignal` exactly when the loop is started) and the error returned to
the caller. -/
def startHeartbeat (remote : Bool) (buildFn : Except String Unit)
    (urlRes : Except String String) (reqOk : Bool)
    (probe1 : Except String (Nat × String)) (probe2 : Except String Nat) :
    Option StopSignalState × Option HBErr :=
  if !remote then
    (none, none)
  else
    match buildFn with
    | .error _ => (none, none)
    | .ok _ =>
      match urlRes with
      | .error _ => (none, none)
      | .ok _ =>
        if !reqOk then
          (none, none)
        else
          match heartbeat probe1 with
          | some e =>
            match e with
            | .http code _ =>
              if code = 404 then (none, none) else (none, some e)
            | .transport _ => (none, some e)
          | none =>
            match probe2 with
            | .error _ => (none, none)
            | .ok status =>
              if status ≠ 202 then (none, none)
              else (some freshStopSignal, none)

/-- The longest prefix of non-`p` elements together with the first `p`
element when one exists: the portion of a candidate list a short-circuiting
loop actually visits. -/
def takeThrough {α : Type} (p : α → Bool) : List α → List α
  | [] => []
  | x :: xs => if p x then [x] else x :: takeThrough p xs

/-- The value the strategy loop returns to the caller, as a function of
the candidate list alone. -/
def loopOutcome (exhaustErr : String) :
    List Strategy → Except String DeploymentImage
  | [] => .error exhaustErr
  | s :: rest =>
    match s.run.err with
    | some e => .error e
    | none =>
      match s.run.img with
      | some image => .ok image
      | none => loopOutcome exhaustErr rest

/-- The `finishBuild` calls the strategy loop issues, as a function of
the candidate list alone. -/
def loopFinishCalls : List Strategy → List FinishBuildCall
  | [] => [{ failed := true, logs := "no strategies resulted in an image",
             img := none }]
  | s :: rest =>
    match s.run.err with
    | some e => [{ failed := true, logs := e, img := none }]
    | none =>
      match s.run.img with
      | some image => [{ failed := false, logs := "", img := some image }]
      | none => loopFinishCalls rest

/-- The telemetry attempt record the loop appends for one invoked
strategy. -/
def attemptOf (s : Strategy) : BuildStrategyAttemptInput :=
  match s.run.err with
  | some e =>
    { strategy := s.name, result := "failed", error := limitLogsStr e,
      note := limitLogsStr s.run.note }
  | none =>
    match s.run.img with
    | some _ =>
      { strategy := s.name, result := "success", error := limitLogsStr "",
        note := limitLogsStr s.run.note }
    | none =>
      { strategy := s.name, result := "failed", error := limitLogsStr "",
        note := limitLogsStr s.run.note }

/-- Whether an `Except` result is a success. -/
def okOf {ε α : Type} : Except ε α → Bool
  | .ok _ => true
  | .error _ => false

/-- The image carried by a successful result. -/
def imageOf {ε α : Type} : Except ε α → Option α
  | .ok a => some a
  | .error _ => none

/-- The `FinalImage` field `finishBuild` assembles: the image's identity
when present, the Go zero value otherwise. -/
def finalImageOf : Option DeploymentImage → BuildFinalImageInput
  | some i => { id := i.id, tag := i.tag, sizeBytes := i.size }
  | none => {}

/-! ### Helper lemmas about the strategy loop -/

theorem limitLogsStr_empty : limitLogsStr "" = "" := rfl

theorem attemptOf_strategy (s : Strategy) : (attemptOf s).strategy = s.name := by
  unfold attemptOf
  cases s.run.err <;> [skip; rfl]
  cases s.run.img <;> rfl

theorem decisive_false {s : Strategy} (h : decisive s = false) :
    s.run.err = none ∧ s.run.img = none := by
  unfold decisive at h
  rw [Bool.or_eq_false_iff] at h
  exact ⟨Option.not_isSome_iff_eq_none.mp (by simp [h.1]),
    Option.not_isSome_iff_eq_none.mp (by simp [h.2])⟩

theorem strategyLoop_invoked (exhaustErr : String) (clk : Clock) (k : Nat)
    (b : Build) (ss : List Strategy) :
    (strategyLoop exhaustErr clk k b ss).invoked
      = (takeThrough decisive ss).map Strategy.name := by
  induction ss generalizing k b with
  | nil => rfl
  | cons s rest ih =>
    simp only [strategyLoop, takeThrough]
    cases he : s.run.err with
    | some e => simp [he, decisive]
    | none =>
      cases hi : s.run.img with
      | some image => simp [he, hi, decisive]
      | none => simp [he, hi, decisive, ih]

theorem strategyLoop_outcome (exhaustErr : String) (clk : Clock) (k : Nat)
    (b : Build) (ss : List Strategy) :
    (strategyLoop exhaustErr clk k b ss).outcome = loopOutcome exhaustErr ss := by
  induction ss generalizing k b with
  | nil => rfl
  | cons s rest ih =>
    simp only [strategyLoop, loopOutcome]
    cases he : s.run.err with
    | some e => simp [he]
    | none =>
      cases hi : s.run.img with
      | some image => simp [he, hi]
      | none => simp [he, hi, ih]

theorem strategyLoop_finishCalls (exhaustErr : String) (clk : Clock) (k : Nat)
    (b : Build) (ss : List Strategy) :
    (strategyLoop exhaustErr clk k b ss).finishCalls = loopFinishCalls ss := by
  induction ss generalizing k b with
  | nil => rfl
  | cons s rest ih =>
    simp only [strategyLoop, loopFinishCalls]
    cases he : s.run.err with
    | some e => simp [he]
    | none =>
      cases hi : s.run.img with
      | some image => simp [he, hi]
      | none => simp [he, hi, ih]

theorem strategyLoop_bld_results (exhaustErr : String) (clk : Clock) (k : Nat)
    (b : Build) (ss : List Strategy) :
    (strategyLoop exhaustErr clk k b ss).bld.strategyResults
      = b.strategyResults ++ (takeThrough decisive ss).map attemptOf := by
  induction ss generalizing k b with
  | nil => simp [strategyLoop, takeThrough]
  | cons s rest ih =>
    simp only [strategyLoop, takeThrough]
    cases he : s.run.err with
    | some e =>
      simp [he, decisive, attemptOf, finishStrategyCommon, buildAndPushFinish,
        buildAndPushStart, resetTimings]
    | none =>
      cases hi : s.run.img with
      | some image =>
        simp [he, hi, decisive, attemptOf, finishStrategyCommon,
          buildAndPushFinish, buildAndPushStart, resetTimings]
      | none =>
        simp [he, hi, decisive, attemptOf, finishStrategyCommon,
          buildAndPushFinish, buildAndPushStart, resetTimings, ih]

theorem strategyLoop_createApiFailed (exhaustErr : String) (clk : Clock)
    (k : Nat) (b : Build) (ss : List Strategy) :
    (strategyLoop exhaustErr clk k b ss).bld.createApiFailed
      = b.createApiFailed := by
  induction ss generalizing k b with
  | nil => rfl
  | cons s rest ih =>
    simp only [strategyLoop]
    cases he : s.run.err with
    | some e =>
      simp [he, finishStrategyCommon, buildAndPushFinish, buildAndPushStart,
        resetTimings]
    | none =>
      cases hi : s.run.img with
      | some image =>
        simp [he, hi, finishStrategyCommon, buildAndPushFinish,
          buildAndPushStart, resetTimings]
      | none =>
        simp [he, hi, finishStrategyCommon, buildAndPushFinish,
          buildAndPushStart, resetTimings, ih]

theorem strategyLoop_buildId (exhaustErr : String) (clk : Clock)
    (k : Nat) (b : Build) (ss : List Strategy) :
    (strategyLoop exhaustErr clk k b ss).bld.buildId = b.buildId := by
  induction ss generalizing k b with
  | nil => rfl
  | cons s rest ih =>
    simp only [strategyLoop]
    cases he : s.run.err with
    | some e =>
      simp [he, finishStrategyCommon, buildAndPushFinish, buildAndPushStart,
        resetTimings]
    | none =>
      cases hi : s.run.img with
      | some image =>
        simp [he, hi, finishStrategyCommon, buildAndPushFinish,
          buildAndPushStart, resetTimings]
      | none =>
        simp [he, hi, finishStrategyCommon, buildAndPushFinish,
          buildAndPushStart, resetTimings, ih]

theorem takeThrough_split {α : Type} (p : α → Bool) (pre post : List α)
    (x : α) (hpre : ∀ y ∈ pre, p y = false) (hx : p x = true) :
    takeThrough p (pre ++ x :: post) = pre ++ [x] := by
  induction pre with
  | nil => simp [takeThrough, hx]
  | cons a l ih =>
    have ha : p a = false := hpre a (by simp)
    simp [takeThrough, ha, ih (fun y hy => hpre y (by simp [hy]))]

theorem takeThrough_decline {α : Type} (p : α → Bool) (l : List α)
    (h : ∀ y ∈ l, p y = false) :
    takeThrough p l = l := by
  induction l with
  | nil => rfl
  | cons a l ih =>
    have ha : p a = false := h a (by simp)
    simp [takeThrough, ha, ih (fun y hy => h y (by simp [hy]))]

theorem loopOutcome_split (e : String) (pre post : List Strategy)
    (s : Strategy) (err : String)
    (hpre : ∀ x ∈ pre, decisive x = false) (herr : s.run.err = some err) :
    loopOutcome e (pre ++ s :: post) = .error err := by
  induction pre with
  | nil => simp [loopOutcome, herr]
  | cons a l ih =>
    obtain ⟨ha1, ha2⟩ := decisive_false (hpre a (by simp))
    simp [loopOutcome, ha1, ha2, ih (fun x hx => hpre x (by simp [hx]))]

theorem loopFinishCalls_split (pre post : List Strategy)
    (s : Strategy) (err : String)
    (hpre : ∀ x ∈ pre, decisive x = false) (herr : s.run.err = some err) :
    loopFinishCalls (pre ++ s :: post)
      = [{ failed := true, logs := err, img := none }] := by
  induction pre with
  | nil => simp [loopFinishCalls, herr]
  | cons a l ih =>
    obtain ⟨ha1, ha2⟩ := decisive_false (hpre a (by simp))
    simp [loopFinishCalls, ha1, ha2, ih (fun x hx => hpre x (by simp [hx]))]

theorem loopOutcome_decline (e : String) (ss : List Strategy)
    (h : ∀ x ∈ ss, decisive x = false) :
    loopOutcome e ss = .error e := by
  induction ss with
  | nil => rfl
  | cons a l ih =>
    obtain ⟨ha1, ha2⟩ := decisive_false (h a (by simp))
    simp [loopOutcome, ha1, ha2, ih (fun x hx => h x (by simp [hx]))]

theorem loopFinishCalls_decline (ss : List Strategy)
    (h : ∀ x ∈ ss, decisive x = false) :
    loopFinishCalls ss
      = [{ failed := true, logs := "no strategies resulted in an image",
           img := none }] := by
  induction ss with
  | nil => rfl
  | cons a l ih =>
    obtain ⟨ha1, ha2⟩ := decisive_false (h a (by simp))
    simp [loopFinishCalls, ha1, ha2, ih (fun x hx => h x (by simp [hx]))]

theorem loopFinishCalls_char (e : String) (ss : List Strategy) :
    (loopFinishCalls ss).map (fun c => (c.failed, c.img))
      = [(!okOf (loopOutcome e ss), imageOf (loopOutcome e ss))] := by
  induction ss with
  | nil => rfl
  | cons s rest ih =>
    simp only [loopFinishCalls, loopOutcome]
    cases he : s.run.err with
    | some err => simp [okOf, imageOf]
    | none =>
      cases hi : s.run.img with
      | some image => simp [okOf, imageOf]
      | none => simpa using ih

theorem buildFromCreate_results (cr : Except String String) :
    (buildFromCreate cr).strategyResults = [] := by
  cases cr <;> rfl

theorem sessionOf_buildImage (clk : Clock) (useNixpacks : Bool)
    (nixpacksB buildpacksB dockerfileB builtinB : Strategy)
    (cr : Except String String) :
    (buildImage clk true useNixpacks nixpacksB buildpacksB dockerfileB
        builtinB cr).sessionOf
      = some (strategyLoop noDockerfileMsg clk 0 (buildFromCreate cr)
          (if useNixpacks then [nixpacksB]
           else [buildpacksB, dockerfileB, builtinB])) := by
  cases useNixpacks <;> rfl

/-! ### Claim theorems -/

/-- C1: for every session, the orchestrator invokes its candidate
strategies strictly in the fixed declared order — `ResolveReference`:
local-daemon lookup then remote-registry lookup; `BuildImage`:
buildpacks, dockerfile, builtin in that order, or nixpacks alone when
nixpacks mode is selected — and stops iterating at the first strategy
whose `Run` returns either a non-nil image or a non-nil error; no
strategy after that one is invoked. The invoked strategies are exactly
`takeThrough decisive` of the declared candidate list. -/
theorem C1_strategy_order (clk : Clock) (localRes remoteRes : Strategy)
    (createRes : Except String String) (imageRef : String)
    (useNixpacks : Bool)
    (nixpacksB buildpacksB dockerfileB builtinB : Strategy)
    (createRes2 : Except String String) :
    (resolveReference clk localRes remoteRes createRes imageRef).invoked
      = (takeThrough decisive [localRes, remoteRes]).map Strategy.name
    ∧ (buildImage clk true useNixpacks nixpacksB buildpacksB dockerfileB
        builtinB createRes2).sessionOf.map SessionOut.invoked
      = some ((takeThrough decisive
          (if useNixpacks then [nixpacksB]
           else [buildpacksB, dockerfileB, builtinB])).map Strategy.name) := by
  refine ⟨strategyLoop_invoked _ _ _ _ _, ?_⟩
  cases useNixpacks <;>
    simp [buildImage, BuildImageOut.sessionOf, strategyLoop_invoked]

/-- C2: exactly one `StrategyAttemptResult` is appended per strategy
actually invoked, in the order the strategies were tried, so the record
count equals the number of invoked strategies (not the full candidate
list). -/
theorem C2_attempt_records (clk : Clock) (localRes remoteRes : Strategy)
    (createRes : Except String String) (imageRef : String)
    (useNixpacks : Bool)
    (nixpacksB buildpacksB dockerfileB builtinB : Strategy)
    (createRes2 : Except String String) :
    ((resolveReference clk localRes remoteRes createRes
        imageRef).bld.strategyResults.map (fun a => a.strategy)
      = (resolveReference clk localRes remoteRes createRes imageRef).invoked)
    ∧ (resolveReference clk localRes remoteRes createRes
        imageRef).bld.strategyResults.length
      = (resolveReference clk localRes remoteRes createRes
          imageRef).invoked.length
    ∧ ((buildImage clk true useNixpacks nixpacksB buildpacksB dockerfileB
        builtinB createRes2).sessionOf.map
          (fun out => out.bld.strategyResults.map (fun a => a.strategy))
      = (buildImage clk true useNixpacks nixpacksB buildpacksB dockerfileB
          builtinB createRes2).sessionOf.map SessionOut.invoked)
    ∧ ((buildImage clk true useNixpacks nixpacksB buildpacksB dockerfileB
        builtinB createRes2).sessionOf.map
          (fun out => out.bld.strategyResults.length)
      = (buildImage clk true useNixpacks nixpacksB buildpacksB dockerfileB
          builtinB createRes2).sessionOf.map
          (fun out => out.invoked.length)) := by
  refine ⟨?_, ?_, ?_, ?_⟩
  · simp [resolveReference, strategyLoop_bld_results, strategyLoop_invoked,
      buildFromCreate_results, List.map_map, Function.comp_def,
      attemptOf_strategy]
  · simp [resolveReference, strategyLoop_bld_results, strategyLoop_invoked,
      buildFromCreate_results]
  · cases useNixpacks <;>
      simp [buildImage, BuildImageOut.sessionOf, strategyLoop_bld_results,
        strategyLoop_invoked, buildFromCreate_results, List.map_map,
        Function.comp_def, attemptOf_strategy]
  · cases useNixpacks <;>
      simp [buildImage, BuildImageOut.sessionOf, strategyLoop_bld_results,
        strategyLoop_invoked, buildFromCreate_results]

/-- C4: every session entering the strategy loop issues exactly one
finalize call, with failed flag set iff no strategy produced an image and
carrying the produced image exactly on success; `finishBuild` turns the
failed flag into status `"failed"`/`"completed"` and the image into the
`FinalImage` identity (id, tag, byte size). -/
theorem C4_finalize_once (clk : Clock) (localRes remoteRes : Strategy)
    (createRes : Except String String) (imageRef : String)
    (useNixpacks : Bool)
    (nixpacksB buildpacksB dockerfileB builtinB : Strategy)
    (createRes2 : Except String String) :
    ((resolveReference clk localRes remoteRes createRes
        imageRef).finishCalls.map (fun c => (c.failed, c.img))
      = [(!okOf (resolveReference clk localRes remoteRes createRes
            imageRef).outcome,
          imageOf (resolveReference clk localRes remoteRes createRes
            imageRef).outcome)])
    ∧ ((buildImage clk true useNixpacks nixpacksB buildpacksB dockerfileB
        builtinB createRes2).sessionOf.map
          (fun out => out.finishCalls.map (fun c => (c.failed, c.img)))
      = (buildImage clk true useNixpacks nixpacksB buildpacksB dockerfileB
          builtinB createRes2).sessionOf.map
          (fun out => [(!okOf out.outcome, imageOf out.outcome)]))
    ∧ (∀ (b : Build) (failed : Bool) (logs : String)
        (img : Option DeploymentImage),
        (finishBuild b failed logs img).map
            (fun inp => (inp.status, inp.finalImage))
          = if b.createApiFailed then none
            else some (((if failed then "failed" else "completed") : String),
                finalImageOf img)) := by
  refine ⟨?_, ?_, ?_⟩
  · simp only [resolveReference, strategyLoop_finishCalls,
      strategyLoop_outcome]
    exact loopFinishCalls_char _ _
  · rw [sessionOf_buildImage]
    refine congrArg some ?_
    simp only [strategyLoop_finishCalls, strategyLoop_outcome]
    exact loopFinishCalls_char _ _
  · intro b failed logs img
    unfold finishBuild
    cases hc : b.createApiFailed with
    | true => simp
    | false => cases img <;> simp [finalImageOf]

/-- C6: when creating the remote telemetry record fails, the session
proceeds with the degenerate record (empty session id, create-failed flag
set), finalization issues no remote call on it, and the strategy loop
still invokes the same strategies and returns the same image or error it
would with a successfully created record. -/
theorem C6_create_failure_degrades (clk : Clock)
    (localRes remoteRes : Strategy) (g buildId imageRef : String)
    (useNixpacks : Bool)
    (nixpacksB buildpacksB dockerfileB builtinB : Strategy)
    (g2 buildId2 : String) :
    ((resolveReference clk localRes remoteRes (.error g) imageRef).invoked
      = (resolveReference clk localRes remoteRes (.ok buildId)
          imageRef).invoked)
    ∧ ((resolveReference clk localRes remoteRes (.error g) imageRef).outcome
      = (resolveReference clk localRes remoteRes (.ok buildId)
          imageRef).outcome)
    ∧ (resolveReference clk localRes remoteRes (.error g)
        imageRef).bld.createApiFailed = true
    ∧ (resolveReference clk localRes remoteRes (.error g)
        imageRef).bld.buildId = ""
    ∧ (∀ (failed : Bool) (logs : String) (img : Option DeploymentImage),
        finishBuild (resolveReference clk localRes remoteRes (.error g)
          imageRef).bld failed logs img = none)
    ∧ ((buildImage clk true useNixpacks nixpacksB buildpacksB dockerfileB
        builtinB (.error g2)).sessionOf.map SessionOut.invoked
      = (buildImage clk true useNixpacks nixpacksB buildpacksB dockerfileB
          builtinB (.ok buildId2)).sessionOf.map SessionOut.invoked)
    ∧ ((buildImage clk true useNixpacks nixpacksB buildpacksB dockerfileB
        builtinB (.error g2)).sessionOf.map SessionOut.outcome
      = (buildImage clk true useNixpacks nixpacksB buildpacksB dockerfileB
          builtinB (.ok buildId2)).sessionOf.map SessionOut.outcome)
    ∧ ((buildImage clk true useNixpacks nixpacksB buildpacksB dockerfileB
        builtinB (.error g2)).sessionOf.map
          (fun out => out.bld.createApiFailed) = some true)
    ∧ ((buildImage clk true useNixpacks nixpacksB buildpacksB dockerfileB
        builtinB (.error g2)).sessionOf.map
          (fun out => out.bld.buildId) = some "")
    ∧ (∀ (failed : Bool) (logs : String) (img : Option DeploymentImage),
        (buildImage clk true useNixpacks nixpacksB buildpacksB dockerfileB
          builtinB (.error g2)).sessionOf.map
            (fun out => finishBuild out.bld failed logs img)
          = some none) := by
  have hfail : ∀ (ee : String) (k : Nat) (ss : List Strategy),
      (strategyLoop ee clk k (buildFromCreate (.error g2)) ss).bld.createApiFailed
        = true := by
    intro ee k ss
    rw [strategyLoop_createApiFailed]
    rfl
  refine ⟨?_, ?_, ?_, ?_, ?_, ?_, ?_, ?_, ?_, ?_⟩
  · simp [resolveReference, strategyLoop_invoked]
  · simp [resolveReference, strategyLoop_outcome]
  · rw [resolveReference, strategyLoop_createApiFailed]; rfl
  · rw [resolveReference, strategyLoop_buildId]; rfl
  · intro failed logs img
    have hc : (resolveReference clk localRes remoteRes (.error g)
        imageRef).bld.createApiFailed = true := by
      rw [resolveReference, strategyLoop_createApiFailed]; rfl
    simp [finishBuild, hc]
  · cases useNixpacks <;>
      simp [buildImage, BuildImageOut.sessionOf, strategyLoop_invoked]
  · cases useNixpacks <;>
      simp [buildImage, BuildImageOut.sessionOf, strategyLoop_outcome]
  · rw [sessionOf_buildImage]
    exact congrArg some (hfail _ _ _)
  · rw [sessionOf_buildImage]
    refine congrArg some ?_
    simp only [strategyLoop_buildId]
    rfl
  · intro failed logs img
    rw [sessionOf_buildImage]
    refine congrArg some ?_
    simp [finishBuild, hfail]

/-- C3: when a strategy's `Run` returns a non-nil error, the orchestrator
appends a failed attempt result carrying the error text and the note,
finalizes the session as failed with that error text, and returns that
exact error to the caller immediately — the strategies after it are never
invoked. Stated for both entry points, each decomposing its candidate
list around the first erroring strategy. -/
theorem C3_hard_failure (clk : Clock) (localRes remoteRes : Strategy)
    (createRes : Except String String) (imageRef : String)
    (preR postR : List Strategy) (sR : Strategy) (errR : String)
    (hsplitR : [localRes, remoteRes] = preR ++ sR :: postR)
    (hpreR : ∀ x ∈ preR, decisive x = false)
    (herrR : sR.run.err = some errR)
    (useNixpacks : Bool)
    (nixpacksB buildpacksB dockerfileB builtinB : Strategy)
    (createRes2 : Except String String)
    (preB postB : List Strategy) (sB : Strategy) (errB : String)
    (hsplitB : (if useNixpacks then [nixpacksB]
        else [buildpacksB, dockerfileB, builtinB]) = preB ++ sB :: postB)
    (hpreB : ∀ x ∈ preB, decisive x = false)
    (herrB : sB.run.err = some errB) :
    ((resolveReference clk localRes remoteRes createRes imageRef).outcome
        = .error errR
      ∧ (resolveReference clk localRes remoteRes createRes
          imageRef).finishCalls
        = [{ failed := true, logs := errR, img := none }]
      ∧ (resolveReference clk localRes remoteRes createRes imageRef).invoked
        = preR.map Strategy.name ++ [sR.name]
      ∧ (resolveReference clk localRes remoteRes createRes
          imageRef).bld.strategyResults
        = preR.map attemptOf
          ++ [{ strategy := sR.name, result := "failed",
                error := limitLogsStr errR,
                note := limitLogsStr sR.run.note }])
    ∧ ((buildImage clk true useNixpacks nixpacksB buildpacksB dockerfileB
          builtinB createRes2).sessionOf.map SessionOut.outcome
        = some (.error errB)
      ∧ (buildImage clk true useNixpacks nixpacksB buildpacksB dockerfileB
          builtinB createRes2).sessionOf.map SessionOut.finishCalls
        = some [{ failed := true, logs := errB, img := none }]
      ∧ (buildImage clk true useNixpacks nixpacksB buildpacksB dockerfileB
          builtinB createRes2).sessionOf.map SessionOut.invoked
        = some (preB.map Strategy.name ++ [sB.name])
      ∧ (buildImage clk true useNixpacks nixpacksB buildpacksB dockerfileB
          builtinB createRes2).sessionOf.map
            (fun out => out.bld.strategyResults)
        = some (preB.map attemptOf
            ++ [{ strategy := sB.name, result := "failed",
                  error := limitLogsStr errB,
                  note := limitLogsStr sB.run.note }])) := by
  have hdecR : decisive sR = true := by simp [decisive, herrR]
  have hdecB : decisive sB = true := by simp [decisive, herrB]
  have hattR : attemptOf sR
      = { strategy := sR.name, result := "failed",
          error := limitLogsStr errR, note := limitLogsStr sR.run.note } := by
    unfold attemptOf
    rw [herrR]
  have hattB : attemptOf sB
      = { strategy := sB.name, result := "failed",
          error := limitLogsStr errB, note := limitLogsStr sB.run.note } := by
    unfold attemptOf
    rw [herrB]
  refine ⟨⟨?_, ?_, ?_, ?_⟩, ?_, ?_, ?_, ?_⟩
  · rw [resolveReference, strategyLoop_outcome, hsplitR]
    exact loopOutcome_split _ _ _ _ _ hpreR herrR
  · rw [resolveReference, strategyLoop_finishCalls, hsplitR]
    exact loopFinishCalls_split _ _ _ _ hpreR herrR
  · rw [resolveReference, strategyLoop_invoked, hsplitR,
      takeThrough_split _ _ _ _ hpreR hdecR]
    simp
  · rw [resolveReference, strategyLoop_bld_results, buildFromCreate_results,
      hsplitR, takeThrough_split _ _ _ _ hpreR hdecR]
    simp [hattR]
  · rw [sessionOf_buildImage]
    refine congrArg some ?_
    rw [strategyLoop_outcome, hsplitB]
    exact loopOutcome_split _ _ _ _ _ hpreB herrB
  · rw [sessionOf_buildImage]
    refine congrArg some ?_
    rw [strategyLoop_finishCalls, hsplitB]
    exact loopFinishCalls_split _ _ _ _ hpreB herrB
  · rw [sessionOf_buildImage]
    refine congrArg some ?_
    rw [strategyLoop_invoked, hsplitB, takeThrough_split _ _ _ _ hpreB hdecB]
    simp
  · rw [sessionOf_buildImage]
    refine congrArg some ?_
    simp only [strategyLoop_bld_results]
    rw [buildFromCreate_results, hsplitB,
      takeThrough_split _ _ _ _ hpreB hdecB]
    simp [hattB]

/-- Witness for C3: the local resolver declines and the remote resolver
hard-fails with "boom"; in nixpacks mode the nixpacks builder hard-fails
with "nix boom". -/
theorem C3_hard_failure_witness :
    (resolveReference (fun _ => 0)
        { name := "local",
          run := { img := none, note := "nt", err := some "boom" } }
        { name := "remote", run := { img := none, note := "", err := none } }
        (.ok "b0") "img").outcome = .error "boom"
    ∧ (buildImage (fun _ => 0) true true
        { name := "nixpacks",
          run := { img := none, note := "", err := some "nix boom" } }
        { name := "buildpacks", run := { img := none, note := "", err := none } }
        { name := "dockerfile", run := { img := none, note := "", err := none } }
        { name := "builtin", run := { img := none, note := "", err := none } }
        (.ok "b1")).sessionOf.map SessionOut.outcome
      = some (.error "nix boom") := by
  have h := C3_hard_failure (fun _ => 0)
    { name := "local",
      run := { img := none, note := "nt", err := some "boom" } }
    { name := "remote", run := { img := none, note := "", err := none } }
    (.ok "b0") "img"
    [] [{ name := "remote", run := { img := none, note := "", err := none } }]
    _ "boom" rfl (fun x hx => nomatch hx) rfl
    true
    { name := "nixpacks",
      run := { img := none, note := "", err := some "nix boom" } }
    { name := "buildpacks", run := { img := none, note := "", err := none } }
    { name := "dockerfile", run := { img := none, note := "", err := none } }
    { name := "builtin", run := { img := none, note := "", err := none } }
    (.ok "b1")
    [] [] _ "nix boom" rfl (fun x hx => nomatch hx) rfl
  exact ⟨h.1.1, h.2.1⟩

/-- C5 counterexample: with every builder declining, `BuildImage`
finalizes with the synthetic log message but returns the
Dockerfile/buildpacks configuration error, which is neither "no
strategies resulted in an image" nor of the form "could not find
image ...". -/
theorem C5_counterexample :
    (buildImage (fun _ => 0) true false
        { name := "nixpacks", run := { img := none, note := "", err := none } }
        { name := "buildpacks", run := { img := none, note := "", err := none } }
        { name := "dockerfile", run := { img := none, note := "", err := none } }
        { name := "builtin", run := { img := none, note := "", err := none } }
        (.ok "b1")).sessionOf.map SessionOut.outcome
      = some (.error noDockerfileMsg)
    ∧ noDockerfileMsg ≠ "no strategies resulted in an image"
    ∧ noDockerfileMsg.data.take 20 ≠ "could not find image".data := by
  refine ⟨?_, by decide, by decide⟩
  rw [sessionOf_buildImage]
  refine congrArg some ?_
  rw [strategyLoop_outcome]
  exact loopOutcome_decline _ _ (by decide)

/-- C5 (amended): if every candidate declines, both entry points finalize
the session as failed with the synthetic log message "no strategies
resulted in an image"; `ResolveReference` returns the error
`could not find image "<ref>"`, while `BuildImage` returns the
Dockerfile/buildpacks configuration error (not the synthetic message). -/
theorem C5_exhaustion_amended (clk : Clock) (localRes remoteRes : Strategy)
    (createRes : Except String String) (imageRef : String)
    (hLocal : decisive localRes = false)
    (hRemote : decisive remoteRes = false)
    (useNixpacks : Bool)
    (nixpacksB buildpacksB dockerfileB builtinB : Strategy)
    (createRes2 : Except String String)
    (hAll : ∀ x ∈ (if useNixpacks then [nixpacksB]
        else [buildpacksB, dockerfileB, builtinB]), decisive x = false) :
    ((resolveReference clk localRes remoteRes createRes
        imageRef).finishCalls
      = [{ failed := true, logs := "no strategies resulted in an image",
           img := none }]
      ∧ (resolveReference clk localRes remoteRes createRes imageRef).outcome
        = .error ("could not find image " ++ goQuote imageRef))
    ∧ ((buildImage clk true useNixpacks nixpacksB buildpacksB dockerfileB
          builtinB createRes2).sessionOf.map SessionOut.finishCalls
        = some [{ failed := true,
                  logs := "no strategies resulted in an image", img := none }]
      ∧ (buildImage clk true useNixpacks nixpacksB buildpacksB dockerfileB
          builtinB createRes2).sessionOf.map SessionOut.outcome
        = some (.error noDockerfileMsg)) := by
  have hR : ∀ x ∈ [localRes, remoteRes], decisive x = false := by
    intro x hx
    simp only [List.mem_cons, List.not_mem_nil, or_false] at hx
    rcases hx with rfl | rfl
    · exact hLocal
    · exact hRemote
  refine ⟨⟨?_, ?_⟩, ?_, ?_⟩
  · rw [resolveReference, strategyLoop_finishCalls]
    exact loopFinishCalls_decline _ hR
  · rw [resolveReference, strategyLoop_outcome]
    exact loopOutcome_decline _ _ hR
  · rw [sessionOf_buildImage]
    refine congrArg some ?_
    rw [strategyLoop_finishCalls]
    exact loopFinishCalls_decline _ hAll
  · rw [sessionOf_buildImage]
    refine congrArg some ?_
    rw [strategyLoop_outcome]
    exact loopOutcome_decline _ _ hAll

/-- Witness for the amended C5: every strategy declines in both
sessions. -/
theorem C5_exhaustion_witness :
    (resolveReference (fun _ => 0)
        { name := "local", run := { img := none, note := "", err := none } }
        { name := "remote", run := { img := none, note := "", err := none } }
        (.ok "b0") "ref").outcome
      = .error ("could not find image " ++ goQuote "ref")
    ∧ (buildImage (fun _ => 0) true false
        { name := "nixpacks", run := { img := none, note := "", err := none } }
        { name := "buildpacks", run := { img := none, note := "", err := none } }
        { name := "dockerfile", run := { img := none, note := "", err := none } }
        { name := "builtin", run := { img := none, note := "", err := none } }
        (.ok "b1")).sessionOf.map SessionOut.outcome
      = some (.error noDockerfileMsg) := by
  have h := C5_exhaustion_amended (fun _ => 0)
    { name := "local", run := { img := none, note := "", err := none } }
    { name := "remote", run := { img := none, note := "", err := none } }
    (.ok "b0") "ref" (by decide) (by decide)
    false
    { name := "nixpacks", run := { img := none, note := "", err := none } }
    { name := "buildpacks", run := { img := none, note := "", err := none } }
    { name := "dockerfile", run := { img := none, note := "", err := none } }
    { name := "builtin", run := { img := none, note := "", err := none } }
    (.ok "b1") (by decide)
  exact ⟨h.1.2, h.2.2⟩

/-- C7: `limitLogs` returns its input unchanged at up to `logLimit` bytes,
returns exactly the trailing `logLimit` bytes of a longer input (the
result has length `logLimit` and the input is the dropped front followed
by the result), is idempotent, and never yields more than `logLimit`
bytes. Stated byte-exactly on byte lists. -/
theorem C7_limitLogs_truncation (s : List Nat) :
    (s.length ≤ logLimit → limitLogs s = s)
    ∧ (s.length > logLimit →
        (limitLogs s).length = logLimit
        ∧ s.take (s.length - logLimit) ++ limitLogs s = s)
    ∧ limitLogs (limitLogs s) = limitLogs s
    ∧ (limitLogs s).length ≤ logLimit := by
  have hself : ∀ t : List Nat, t.length ≤ logLimit → limitLogs t = t := by
    intro t ht
    simp [limitLogs, Nat.not_lt.mpr ht]
  have hlen : (limitLogs s).length ≤ logLimit := by
    by_cases h : s.length > logLimit
    · simp only [limitLogs, if_pos h, List.length_drop]
      omega
    · rw [hself s (Nat.not_lt.mp h)]
      omega
  refine ⟨hself s, fun h => ⟨?_, ?_⟩, hself _ hlen, hlen⟩
  · simp only [limitLogs, if_pos h, List.length_drop]
    omega
  · simp only [limitLogs, if_pos h]
    exact List.take_append_drop _ s

/-- Witness for C7: a short list is unchanged; a list of 4097 bytes is
truncated to its trailing 4096 bytes. -/
theorem C7_limitLogs_witness :
    limitLogs [1, 2, 3] = [1, 2, 3]
    ∧ (limitLogs (List.replicate 4097 (0 : Nat))).length = logLimit := by
  constructor
  · exact (C7_limitLogs_truncation [1, 2, 3]).1 (by decide)
  · exact ((C7_limitLogs_truncation (List.replicate 4097 (0 : Nat))).2.1
      (by simp only [List.length_replicate, logLimit, gt_iff_lt]; omega)).1

/-- C8: when the first liveness probe of `StartHeartbeat` fails with an
HTTP 404 response, `StartHeartbeat` returns a nil handle and a nil error
and no loop is started; for any other probe error it returns that error
with a nil handle. -/
theorem C8_heartbeat_probe (url : String)
    (probe1 : Except String (Nat × String)) (probe2 : Except String Nat) :
    (∀ body : String, heartbeat probe1 = some (.http 404 body) →
      startHeartbeat true (.ok ()) (.ok url) true probe1 probe2
        = (none, none))
    ∧ (∀ e : HBErr, heartbeat probe1 = some e →
        (∀ body : String, e ≠ .http 404 body) →
        startHeartbeat true (.ok ()) (.ok url) true probe1 probe2
          = (none, some e)) := by
  constructor
  · intro body h
    simp [startHeartbeat, h]
  · intro e h hne
    cases e with
    | http code body =>
      have hc : code ≠ 404 := fun hc => hne body (by rw [hc])
      simp [startHeartbeat, h, hc]
    | transport msg =>
      simp [startHeartbeat, h]

/-- Witness for C8: a 404 probe yields a nil handle and nil error; a 500
probe yields a nil handle and the http error itself. -/
theorem C8_heartbeat_probe_witness :
    startHeartbeat true (.ok ()) (.ok "u") true (.ok (404, "nf")) (.ok 202)
      = (none, none)
    ∧ startHeartbeat true (.ok ()) (.ok "u") true (.ok (500, "boom"))
        (.ok 202)
      = (none, some (.http 500 "boom")) := by
  constructor
  · exact (C8_heartbeat_probe "u" (.ok (404, "nf")) (.ok 202)).1 "nf"
      (by decide)
  · exact (C8_heartbeat_probe "u" (.ok (500, "boom")) (.ok 202)).2
      (.http 500 "boom") (by decide) (fun body => by simp)

/-- One `Stop` call consumes the `sync.Once`: afterwards every further
call is a no-op. -/
theorem stopSeq_after_done (n : Nat) (st : StopSignalState)
    (h : st.onceDone = true) : stopSeq n st = (st, 0, false) := by
  induction n with
  | zero => rfl
  | succ n ih => simp [stopSeq, stopOne, h, ih]

/-- C9: invoking `Stop` any number `n ≥ 1` of times on a fresh signal
(any interleaving of concurrent calls, each `sync.Once.Do` being atomic)
closes the underlying channel exactly once, and no call ever closes an
already-closed channel (no double-close panic). -/
theorem C9_stop_single_close (n : Nat) (hn : 1 ≤ n) :
    (stopSeq n freshStopSignal).2.1 = 1
    ∧ (stopSeq n freshStopSignal).2.2 = false := by
  obtain ⟨m, rfl⟩ : ∃ m, n = m + 1 := ⟨n - 1, by omega⟩
  have h1 : stopOne freshStopSignal
      = { state := { chanClosed := true, onceDone := true }, closes := 1,
          doubleClose := false } := rfl
  have h2 := stopSeq_after_done m { chanClosed := true, onceDone := true } rfl
  simp [stopSeq, h1, h2]

/-- Witness for C9: three stop calls produce exactly one close event and
no double close. -/
theorem C9_stop_single_close_witness :
    1 ≤ 3
    ∧ ((stopSeq 3 freshStopSignal).2.1 = 1
       ∧ (stopSeq 3 freshStopSignal).2.2 = false) :=
  ⟨by decide, C9_stop_single_close 3 (by decide)⟩

/-- C10: `Stop` on a nil `*StopSignal` is a safe no-op (no state change,
no close, no panic), and `StartHeartbeat` hands out a handle only on the
path that actually starts the loop (remote builder, passing probe, 202
confirmation) — on every other path the handle is nil. -/
theorem C10_nil_stop_noop (remote : Bool) (buildFn : Except String Unit)
    (urlRes : Except String String) (reqOk : Bool)
    (probe1 : Except String (Nat × String)) (probe2 : Except String Nat) :
    stopPtr none = (none, 0, false)
    ∧ ((startHeartbeat remote buildFn urlRes reqOk probe1 probe2).1 = none
       ∨ ((startHeartbeat remote buildFn urlRes reqOk probe1 probe2).1
            = some freshStopSignal
          ∧ remote = true ∧ heartbeat probe1 = none
          ∧ probe2 = .ok 202)) := by
  refine ⟨rfl, ?_⟩
  cases remote with
  | false => left; rfl
  | true =>
    cases buildFn with
    | error e => left; rfl
    | ok u =>
      cases urlRes with
      | error e => left; rfl
      | ok url =>
        cases reqOk with
        | false => left; rfl
        | true =>
          cases hh : heartbeat probe1 with
          | some e =>
            cases e with
            | http code body =>
              by_cases h4 : code = 404
              · left; simp [startHeartbeat, hh, h4]
              · left; simp [startHeartbeat, hh, h4]
            | transport msg => left; simp [startHeartbeat, hh]
          | none =>
            cases probe2 with
            | error e => left; simp [startHeartbeat, hh]
            | ok status =>
              by_cases hs : status = 202
              · subst hs
                right
                exact ⟨by simp [startHeartbeat, hh], rfl, rfl, rfl⟩
              · left; simp [startHeartbeat, hh, hs]

end Imgsrc
